import Mathlib

/-!
Shallow embedding of `src/backend/main.py` (Training Feedback API) and
verification of the specification's claims about it.

Conventions of the embedding:
* An Excel worksheet (openpyxl) is a list of rows; a cell is `XCell`:
  `blank` models an empty cell (openpyxl reads it as `None`), `str`/`num`
  model string and numeric cell values.  The whole Excel store is
  `Option (List (List XCell))`: `none` models "the file does not exist".
* A Google Sheets worksheet, as observed through `get_all_values`, is a
  list of rows of strings; a blank cell is the empty string.  The store is
  `Option (List (List String))` on the read side (`none` = worksheet
  absent); on the write side (submit) the appended row is the Python value
  list, i.e. a `List XCell`.
* Python machine arithmetic is idealised over `ℚ`; `round(x, 2)` is
  round-half-to-even at two decimals (`pyRound2`).
* Exceptions raised by backend I/O are modelled by a fault parameter
  `Option String` injected into each endpoint: `some e` means some backend
  call raised an exception with text `e`; the `try/except` of each handler
  is the `match` on that parameter.
-/

/-- A cell of the local Excel worksheet.  `blank` is an empty cell
(openpyxl returns `None` for it). -/
inductive XCell where
  | blank
  | str (s : String)
  | num (q : ℚ)
deriving DecidableEq, BEq

/-- The fixed 14-column header written by both backends
(`main.py` lines 96-111 and 343-358 list the same strings). -/
def headerNames : List String :=
  ["Timestamp", "Submission ID", "Full Name", "Email", "Job Role",
   "Training Title", "Instructor Name", "Content Avg", "Trainer Avg",
   "Organization Avg", "Overall Avg", "Covered Topics", "Other Topic",
   "Comments"]

/-- The header row as Excel cells. -/
def excelHeader : List XCell := headerNames.map XCell.str

/-- `EXCEL_FILE = "Training Feedback.xlsx"` (line 33). -/
def EXCEL_FILE : String := "Training Feedback.xlsx"

/-- The configuration visible to `_google_sheets_enabled` (lines 38-40):
the two environment variables and whether the optional
`gspread`/`google.oauth2` import at lines 13-19 succeeded (both names are
set to `None` together when it fails, so one flag models both). -/
structure Config where
  googleSheetsEnabledVar : Option String
  googleSpreadsheetId : Option String
  googleWorksheetName : Option String
  gspreadAvailable : Bool

/-- Python `str.lower()`, character by character (the environment values
compared here are ASCII). -/
def pyLower (s : String) : String := ⟨s.data.map Char.toLower⟩

/-- `_google_sheets_enabled` (lines 38-40):
`os.getenv("GOOGLE_SHEETS_ENABLED", "false").lower() == "true"
 and os.getenv("GOOGLE_SPREADSHEET_ID") is not None
 and gspread is not None and Credentials is not None`. -/
def googleSheetsEnabled (cfg : Config) : Bool :=
  (pyLower (cfg.googleSheetsEnabledVar.getD "false") == "true")
    && cfg.googleSpreadsheetId.isSome
    && cfg.gspreadAvailable

/-- `round` of Python on an ideal (rational) value: round half to even. -/
def roundHalfEven (q : ℚ) : ℤ :=
  let f := q.floor
  if q - f < 1/2 then f
  else if 1/2 < q - f then f + 1
  else if f % 2 = 0 then f else f + 1

/-- Python `round(x, 2)`: round half to even at two decimal places. -/
def pyRound2 (q : ℚ) : ℚ := (roundHalfEven (q * 100) : ℚ) / 100

/-- The local helper `average` of `submit_feedback` (lines 308-309):
`round(sum(lst) / len(lst), 2) if lst else 0`. -/
def average (lst : List Int) : ℚ :=
  if lst = [] then 0
  else pyRound2 ((lst.sum : ℚ) / (lst.length : ℚ))

/-- Python `sep.join(lst)` (used at line 328 with `sep = ", "`). -/
def pyJoin (sep : String) : List String → String
  | [] => ""
  | [x] => x
  | x :: xs => x ++ sep ++ pyJoin sep xs

/-- Python `s.split(", ")` at the character-list level: scan left to
right, cutting at each non-overlapping occurrence of `',' ' '`; the empty
string yields `[[]]` (Python: `"".split(", ") == [""]`). -/
def splitCS : List Char → List (List Char)
  | [] => [[]]
  | [c] => [[c]]
  | c1 :: c2 :: rest =>
    if c1 = ',' ∧ c2 = ' ' then
      [] :: splitCS rest
    else
      match splitCS (c2 :: rest) with
      | [] => [[c1]]
      | r :: rs => (c1 :: r) :: rs

/-- Python `s.split(", ")` on strings. -/
def pySplitCS (s : String) : List String :=
  (splitCS s.data).map List.asString

/-- The request body `FeedbackForm` (lines 115-127). -/
structure FeedbackForm where
  full_name : String
  email : String
  job_role : String
  training_title : String
  instructor_name : String
  content_ratings : List Int
  trainer_ratings : List Int
  organization_ratings : List Int
  overall_ratings : List Int
  covered_topics : List String
  other_topic : String
  comments : String

/-- `str(uuid4())[:8]` (line 305), as a function of the generated uuid
string (always 36 characters for `uuid4`). -/
def submissionIdOf (uuid : String) : String := ⟨uuid.data.take 8⟩

/-- The `row` list assembled by `submit_feedback` (lines 316-331). -/
def submissionRow (form : FeedbackForm) (timestamp submission_id : String) :
    List XCell :=
  [XCell.str timestamp,
   XCell.str submission_id,
   XCell.str form.full_name,
   XCell.str form.email,
   XCell.str form.job_role,
   XCell.str form.training_title,
   XCell.str form.instructor_name,
   XCell.num (average form.content_ratings),
   XCell.num (average form.trainer_ratings),
   XCell.num (average form.organization_ratings),
   XCell.num (average form.overall_ratings),
   XCell.str (pyJoin ", " form.covered_topics),
   XCell.str form.other_topic,
   XCell.str form.comments]

/-- The Excel initialisation branch of `submit_feedback` (lines 339-359):
if the file does not exist, create a workbook whose only row is the
header; otherwise keep the existing rows.  Returns the row list the
subsequent `load_workbook`/`append` sees. -/
def ensureInitializedExcel (st : Option (List (List XCell))) :
    List (List XCell) :=
  match st with
  | none => [excelHeader]
  | some rows => rows

/-- `_get_worksheet` (lines 79-112): if the worksheet does not exist it is
created and the header row appended; otherwise the existing rows are
used. -/
def ensureWorksheet (st : Option (List (List XCell))) : List (List XCell) :=
  match st with
  | none => [excelHeader]
  | some rows => rows

/-- Result of `submit_feedback`. -/
inductive SubmitResult where
  | success (submission_id storage : String)
  | error (message : String)
deriving DecidableEq

/-- `submit_feedback` (lines 302-366) without the exception wrapper:
builds the row, then either appends it to the Google Sheets worksheet
(lines 333-336, after `_get_worksheet`) or to the Excel file (lines
339-364, after the initialisation branch).  Returns the response and the
two stores (sheets worksheet rows, Excel file rows). -/
def submitFeedback (cfg : Config) (form : FeedbackForm) (uuid timestamp : String)
    (sheetSt excelSt : Option (List (List XCell))) :
    SubmitResult × Option (List (List XCell)) × Option (List (List XCell)) :=
  let submission_id := submissionIdOf uuid
  let row := submissionRow form timestamp submission_id
  if googleSheetsEnabled cfg then
    (SubmitResult.success submission_id "sheets",
     some (ensureWorksheet sheetSt ++ [row]), excelSt)
  else
    (SubmitResult.success submission_id "excel",
     sheetSt, some (ensureInitializedExcel excelSt ++ [row]))

/-- A generic endpoint response: either a success payload or the
structured error `{"status": "error", "message": ...}`. -/
inductive Resp (α : Type) where
  | ok (v : α)
  | error (message : String)
deriving DecidableEq

/-- Map over the success payload of a response. -/
def Resp.map {α β : Type} (f : α → β) : Resp α → Resp β
  | .ok v => .ok (f v)
  | .error m => .error m

/-- The append-if-non-empty `for` loop used by the Excel branch of
`view_data` (lines 203-205) and the sheets branch of `download_excel`
(lines 237-239): start from an empty list and append every row with a
cell satisfying `keep`. -/
def collectRows {α : Type} (keep : List α → Bool) (rows : List (List α)) :
    List (List α) :=
  rows.foldl (fun acc row => if keep row then acc ++ [row] else acc) []

/-- The Excel branch of `view_data` (lines 188-212): error when the file
does not exist; otherwise headers are row 1, and the data are the rows
from row 2 on that have a cell that is not `None`
(`any(cell is not None for cell in row)`). -/
def viewDataExcel (st : Option (List (List XCell))) :
    Resp (Nat × List XCell × List (List XCell)) :=
  match st with
  | none => .error (EXCEL_FILE ++ " not found.")
  | some rows =>
    let data := collectRows (fun row => row.any (fun c => c != XCell.blank))
      (rows.drop 1)
    .ok (data.length, rows.headD [], data)

/-- The Google Sheets branch of `view_data` (lines 174-186): on an empty
worksheet return zero submissions; otherwise headers are
`sheet_values[0]` and the data are
`[row for row in sheet_values[1:] if any(cell for cell in row)]`
(a string cell is truthy iff it is non-empty). -/
def viewDataSheets (rows : List (List String)) :
    Resp (Nat × List String × List (List String)) :=
  if rows = [] then .ok (0, [], [])
  else
    let data := (rows.drop 1).filter (fun row => row.any (fun c => c != ""))
    .ok (data.length, rows.headD [], data)

/-- Delete responses (`{"status": ..., "message": ...}`). -/
inductive DelResp where
  | success (message : String)
  | error (message : String)
deriving DecidableEq

/-- `row[1] == submission_id` on an Excel row (line 287): true iff the
cell at index 1 exists and is the string `id`. -/
def rowMatches (id : String) (row : List XCell) : Bool :=
  row[1]? == some (XCell.str id)

/-- The Excel branch of `delete_feedback` (lines 277-298): error when the
file does not exist; otherwise scan rows from row 2
(`iter_rows(min_row=2)`, `enumerate(..., start=2)`) for the first row
whose cell B equals the id, delete that row, and save. -/
def deleteFeedbackExcel (id : String) (st : Option (List (List XCell))) :
    DelResp × Option (List (List XCell)) :=
  match st with
  | none => (.error (EXCEL_FILE ++ " not found."), none)
  | some rows =>
    match (rows.drop 1).findIdx? (rowMatches id) with
    | none =>
      (.error ("Submission with ID " ++ id ++ " not found."), some rows)
    | some i =>
      (.success ("Submission " ++ id ++ " deleted successfully."),
       some (rows.eraseIdx (i + 1)))

/-- gspread `ws.find(query)` (line 271): the first cell anywhere in the
worksheet, in row-major order, whose value equals `query`; this returns
the (0-based) index of the row holding that cell, `none` when no cell
matches. -/
def wsFindRow (query : String) (rows : List (List String)) : Option Nat :=
  rows.findIdx? (fun r => r.contains query)

/-- The Google Sheets branch of `delete_feedback` (lines 268-275):
`cell = ws.find(submission_id)`; not-found error when `find` returns
nothing, otherwise `ws.delete_rows(cell.row)`. -/
def deleteFeedbackSheets (id : String) (rows : List (List String)) :
    DelResp × List (List String) :=
  match wsFindRow id rows with
  | none =>
    (.error ("Submission with ID " ++ id ++ " not found."), rows)
  | some i =>
    (.success ("Submission " ++ id ++ " deleted successfully."),
     rows.eraseIdx i)

/-- Response of `/sheets-status` (lines 142-168). -/
inductive StatusResp where
  | enabled (spreadsheet_id : Option String) (worksheet_name : String)
      (total_rows total_submissions : Nat)
  | disabled (message : String)
  | error (sheets_enabled : Bool) (message : String)
deriving DecidableEq

/-- The row counts of `/sheets-status` (lines 154-155): `total_rows` is
`len(sheet_values)` and `total_submissions` counts the non-empty rows
after the first, or is 0 when there is at most one row. -/
def sheetsStatusCounts (rows : List (List String)) : Nat × Nat :=
  (rows.length,
   if 1 < rows.length then
     ((rows.drop 1).filter (fun r => r.any (fun c => c != ""))).length
   else 0)

/-- `/sheets-status` handler (lines 142-168) with the exception fault
parameter: `except Exception as e` returns
`{"status": "error", "sheets_enabled": False,
  "message": f"Error checking Google Sheets: {str(e)}"}`. -/
def sheetsStatusEndpoint (fault : Option String) (cfg : Config)
    (rows : List (List String)) : StatusResp :=
  match fault with
  | some e => .error false ("Error checking Google Sheets: " ++ e)
  | none =>
    if googleSheetsEnabled cfg then
      .enabled cfg.googleSpreadsheetId (cfg.googleWorksheetName.getD "Sheet1")
        (sheetsStatusCounts rows).1 (sheetsStatusCounts rows).2
    else
      .disabled "Google Sheets not configured. Check environment variables."

/-- `/view-data` handler (lines 170-214) with the exception fault
parameter; the success payload is tagged by the backend that produced
it (`inl` = sheets strings, `inr` = Excel cells). -/
def viewDataEndpoint (fault : Option String) (cfg : Config)
    (sheetRows : List (List String)) (excelSt : Option (List (List XCell))) :
    Resp ((Nat × List String × List (List String)) ⊕
          (Nat × List XCell × List (List XCell))) :=
  match fault with
  | some e => .error e
  | none =>
    if googleSheetsEnabled cfg then (viewDataSheets sheetRows).map Sum.inl
    else (viewDataExcel excelSt).map Sum.inr

/-- `/download-excel` handler (lines 216-262) with the exception fault
parameter: the sheets branch materialises header plus the non-empty data
rows (append loop, lines 233-239) under the Google-Sheets filename; the
Excel branch serves the file as is. -/
def downloadEndpoint (fault : Option String) (cfg : Config)
    (sheetRows : List (List String)) (excelSt : Option (List (List XCell))) :
    Resp (String × (List (List String) ⊕ List (List XCell))) :=
  match fault with
  | some e => .error e
  | none =>
    if googleSheetsEnabled cfg then
      if sheetRows = [] then .error "No data found in Google Sheets."
      else
        .ok ("Training_Feedback_Data_Google_Sheets.xlsx",
          Sum.inl (sheetRows.headD [] ::
            collectRows (fun r => r.any (fun c => c != "")) (sheetRows.drop 1)))
    else
      match excelSt with
      | none => .error (EXCEL_FILE ++ " not found.")
      | some rows => .ok ("Training_Feedback_Data.xlsx", Sum.inr rows)

/-- `/delete-feedback/{submission_id}` handler (lines 264-300) with the
exception fault parameter; returns the response and both stores. -/
def deleteEndpoint (fault : Option String) (cfg : Config) (id : String)
    (sheetRows : List (List String)) (excelSt : Option (List (List XCell))) :
    DelResp × List (List String) × Option (List (List XCell)) :=
  match fault with
  | some e => (.error e, sheetRows, excelSt)
  | none =>
    if googleSheetsEnabled cfg then
      ((deleteFeedbackSheets id sheetRows).1,
       (deleteFeedbackSheets id sheetRows).2, excelSt)
    else
      ((deleteFeedbackExcel id excelSt).1, sheetRows,
       (deleteFeedbackExcel id excelSt).2)

/-- `/submit-feedback` handler (lines 302-368) with the exception fault
parameter. -/
def submitEndpoint (fault : Option String) (cfg : Config)
    (form : FeedbackForm) (uuid timestamp : String)
    (sheetSt excelSt : Option (List (List XCell))) :
    SubmitResult × Option (List (List XCell)) × Option (List (List XCell)) :=
  match fault with
  | some e => (.error e, sheetSt, excelSt)
  | none => submitFeedback cfg form uuid timestamp sheetSt excelSt

/-- A configuration with Google Sheets disabled (no environment
variables set, library unavailable). -/
def localConfig : Config := ⟨none, none, none, false⟩

/-- A configuration that enables Google Sheets. -/
def sheetsConfig : Config := ⟨some "true", some "sheet-id-1", some "Data", true⟩

/-- A form with every field empty. -/
def blankForm : FeedbackForm := ⟨"", "", "", "", "", [], [], [], [], [], "", ""⟩

/-- A fixed 36-character uuid string, as produced by `uuid4`. -/
def uuidC : String := "00000000-1111-4222-8333-444455556666"

/-- A fixed timestamp string. -/
def tsC : String := "2024-01-01 00:00:00"

/-- A sheets worksheet whose single data row has submission id "abc" but
contains the text "xyz" in its third (Full Name) column. -/
def c2Store : List (List String) :=
  [headerNames,
   ["t1", "abc", "xyz", "", "", "", "", "", "", "", "", "", "", ""]]

/-- A sheets worksheet in which row 2 contains "hello" only in its third
(Full Name) column, while row 3 has submission id "hello". -/
def c3Store : List (List String) :=
  [headerNames,
   ["t1", "id1", "hello", "", "", "", "", "", "", "", "", "", "", ""],
   ["t2", "hello", "bob", "", "", "", "", "", "", "", "", "", "", ""]]

/-- The append loop is the filter of the rows satisfying `keep`. -/
theorem foldl_append_filter {α : Type} (keep : List α → Bool)
    (rows : List (List α)) (acc : List (List α)) :
    rows.foldl (fun a row => if keep row then a ++ [row] else a) acc
      = acc ++ rows.filter keep := by
  induction rows generalizing acc with
  | nil => simp
  | cons r rs ih =>
    by_cases h : keep r
    · simp [List.foldl_cons, List.filter_cons, h, ih]
    · simp [List.foldl_cons, List.filter_cons, h, ih]

/-- `collectRows` keeps exactly the rows satisfying `keep`, in order. -/
theorem collectRows_eq_filter {α : Type} (keep : List α → Bool)
    (rows : List (List α)) : collectRows keep rows = rows.filter keep := by
  simpa using foldl_append_filter keep rows []

/-- Claim C1: the `average` helper of submit returns
`round(sum(L) / len(L), 2)` on every non-empty integer list and `0` on the
empty list, and the assembled row carries the four averages of the four
rating lists independently at columns 8-11. -/
theorem average_matches_spec (L : List Int) (h : L ≠ []) :
    average L = pyRound2 ((L.sum : ℚ) / (L.length : ℚ)) ∧
    average [] = 0 ∧
    ∀ (form : FeedbackForm) (ts id : String),
      (submissionRow form ts id)[7]? =
        some (XCell.num (average form.content_ratings)) ∧
      (submissionRow form ts id)[8]? =
        some (XCell.num (average form.trainer_ratings)) ∧
      (submissionRow form ts id)[9]? =
        some (XCell.num (average form.organization_ratings)) ∧
      (submissionRow form ts id)[10]? =
        some (XCell.num (average form.overall_ratings)) :=
  ⟨by simp [average, h], rfl, fun form ts id => ⟨rfl, rfl, rfl, rfl⟩⟩

/-- Witness for C1 at the concrete list `[4, 5]`. -/
theorem average_matches_spec_witness :
    ([4, 5] : List Int) ≠ [] ∧
    average [4, 5] =
      pyRound2 ((([4, 5] : List Int).sum : ℚ) / (([4, 5] : List Int).length : ℚ)) :=
  ⟨by decide, (average_matches_spec [4, 5] (by decide)).1⟩

/-- Claim C4: in both backends `view_data` returns exactly the data rows
with at least one non-blank cell (`None` in Excel, `""` in Sheets), in
insertion order, the header row excluded, and `total_submissions` is the
length of that filtered list. -/
theorem view_data_filters_blank_rows (xrows : List (List XCell))
    (srows : List (List String)) :
    viewDataExcel (some xrows) =
      Resp.ok
        (((xrows.drop 1).filter
            (fun row => row.any (fun c => c != XCell.blank))).length,
         xrows.headD [],
         (xrows.drop 1).filter (fun row => row.any (fun c => c != XCell.blank))) ∧
    viewDataSheets srows =
      Resp.ok
        (((srows.drop 1).filter (fun row => row.any (fun c => c != ""))).length,
         srows.headD [],
         (srows.drop 1).filter (fun row => row.any (fun c => c != ""))) := by
  constructor
  · simp [viewDataExcel, collectRows_eq_filter]
  · by_cases h : srows = []
    · subst h; rfl
    · simp [viewDataSheets, h]

/-- Claim C10: the Excel delete scan starts at row 2, so for every
submission id (including one equal to a header cell text) the first row
of the worksheet is untouched. -/
theorem delete_excel_preserves_header (id : String)
    (rows : List (List XCell)) :
    ∃ rows', (deleteFeedbackExcel id (some rows)).2 = some rows' ∧
      rows'.head? = rows.head? := by
  unfold deleteFeedbackExcel
  simp only [List.drop_one]
  cases h : rows.tail.findIdx? (rowMatches id) with
  | none => exact ⟨rows, rfl, rfl⟩
  | some i =>
    refine ⟨rows.eraseIdx (i + 1), rfl, ?_⟩
    cases rows with
    | nil => rw [List.tail_nil, List.findIdx?_nil] at h; cases h
    | cons r rs => rfl

/-- Claim C8: with a backend exception injected, each of the five
handlers returns the structured error response carrying the exception
text, and no handler propagates the exception. -/
theorem handlers_catch_backend_exceptions (e : String) (cfg : Config)
    (id : String) (form : FeedbackForm) (uuid ts : String)
    (srows : List (List String)) (sst est : Option (List (List XCell))) :
    sheetsStatusEndpoint (some e) cfg srows =
      StatusResp.error false ("Error checking Google Sheets: " ++ e) ∧
    viewDataEndpoint (some e) cfg srows est = Resp.error e ∧
    downloadEndpoint (some e) cfg srows est = Resp.error e ∧
    deleteEndpoint (some e) cfg id srows est = (DelResp.error e, srows, est) ∧
    submitEndpoint (some e) cfg form uuid ts sst est =
      (SubmitResult.error e, sst, est) :=
  ⟨rfl, rfl, rfl, rfl, rfl⟩

/-- Claim C2 (code bug): on a worksheet whose only data row has
submission id "abc" but contains the text "xyz" in its Full Name column,
`delete_feedback("xyz")` on the Sheets backend reports success and
deletes that row, although no row has submission id "xyz"; the claim
requires a not-found error and an unchanged dataset. -/
theorem delete_sheets_deletes_on_no_id_match :
    (deleteFeedbackSheets "xyz" c2Store).1 =
      DelResp.success "Submission xyz deleted successfully." ∧
    (deleteFeedbackSheets "xyz" c2Store).2 = [headerNames] ∧
    (deleteFeedbackSheets "xyz" c2Store).2 ≠ c2Store ∧
    (∀ r ∈ c2Store, r[1]? ≠ some "xyz") := by decide

/-- Claim C3 (code bug): `ws.find` matches the first cell anywhere in
row-major order, so on `c3Store` deleting "hello" removes the row whose
submission id is "id1" (it contains "hello" only in its Full Name
column) and leaves the row whose submission id column is "hello". -/
theorem delete_sheets_matches_any_column :
    (deleteFeedbackSheets "hello" c3Store).1 =
      DelResp.success "Submission hello deleted successfully." ∧
    (deleteFeedbackSheets "hello" c3Store).2 =
      [headerNames,
       ["t2", "hello", "bob", "", "", "", "", "", "", "", "", "", "", ""]] ∧
    c3Store[1]?.map (fun r => r[1]?) = some (some "id1") := by decide

/-- Claim C7: the Google Sheets backend is selected iff the enabling
environment variable lower-cases to "true", the spreadsheet id is set and
the gspread client library imported; in every other configuration the
endpoints use the local Excel backend. -/
theorem backend_selection (cfg cfgOff : Config)
    (hoff : googleSheetsEnabled cfgOff = false) :
    (googleSheetsEnabled cfg = true ↔
      (pyLower (cfg.googleSheetsEnabledVar.getD "false") = "true" ∧
        cfg.googleSpreadsheetId.isSome = true ∧
        cfg.gspreadAvailable = true)) ∧
    (∀ srows est, viewDataEndpoint none cfgOff srows est =
        (viewDataExcel est).map Sum.inr) ∧
    (∀ id srows est, deleteEndpoint none cfgOff id srows est =
        ((deleteFeedbackExcel id est).1, srows, (deleteFeedbackExcel id est).2)) ∧
    (∀ form uuid ts sst est, submitFeedback cfgOff form uuid ts sst est =
        (SubmitResult.success (submissionIdOf uuid) "excel", sst,
         some (ensureInitializedExcel est ++
           [submissionRow form ts (submissionIdOf uuid)]))) ∧
    (∀ srows, downloadEndpoint none cfgOff srows none =
        Resp.error (EXCEL_FILE ++ " not found.")) ∧
    (∀ srows xrows, downloadEndpoint none cfgOff srows (some xrows) =
        Resp.ok ("Training_Feedback_Data.xlsx", Sum.inr xrows)) := by
  refine ⟨?_, ?_, ?_, ?_, ?_, ?_⟩
  · simp [googleSheetsEnabled, Bool.and_eq_true, beq_iff_eq, and_assoc]
  · intro srows est; simp [viewDataEndpoint, hoff]
  · intro id srows est; simp [deleteEndpoint, hoff]
  · intro form uuid ts sst est; simp [submitFeedback, hoff]
  · intro srows; simp [downloadEndpoint, hoff]
  · intro srows xrows; simp [downloadEndpoint, hoff]

/-- Witness for C7 at the concrete configurations `sheetsConfig`
(enabled) and `localConfig` (disabled). -/
theorem backend_selection_witness :
    googleSheetsEnabled localConfig = false ∧
    (googleSheetsEnabled sheetsConfig = true ↔
      (pyLower (sheetsConfig.googleSheetsEnabledVar.getD "false") = "true" ∧
        sheetsConfig.googleSpreadsheetId.isSome = true ∧
        sheetsConfig.gspreadAvailable = true)) :=
  ⟨by decide, (backend_selection sheetsConfig localConfig (by decide)).1⟩

/-- Claim C9: submit generates an 8-character submission id from the
uuid, stores the same id in column 2 of the appended row, and returns it
together with the storage kind "sheets" when the Sheets backend handled
the append and "excel" when the Excel backend did. -/
theorem submit_returns_generated_id (cfg : Config) (form : FeedbackForm)
    (uuid ts : String) (sst est : Option (List (List XCell)))
    (h : 8 ≤ uuid.length) :
    (submissionIdOf uuid).length = 8 ∧
    (submissionRow form ts (submissionIdOf uuid))[1]? =
      some (XCell.str (submissionIdOf uuid)) ∧
    submitFeedback cfg form uuid ts sst est =
      (SubmitResult.success (submissionIdOf uuid)
          (if googleSheetsEnabled cfg then "sheets" else "excel"),
       if googleSheetsEnabled cfg then
         some (ensureWorksheet sst ++
           [submissionRow form ts (submissionIdOf uuid)])
       else sst,
       if googleSheetsEnabled cfg then est
       else
         some (ensureInitializedExcel est ++
           [submissionRow form ts (submissionIdOf uuid)])) := by
  refine ⟨?_, rfl, ?_⟩
  · show (uuid.data.take 8).length = 8
    rw [List.length_take]
    exact Nat.min_eq_left h
  · by_cases hc : googleSheetsEnabled cfg <;> simp [submitFeedback, hc]

/-- Witness for C9 at a concrete 36-character uuid string. -/
theorem submit_returns_generated_id_witness :
    8 ≤ uuidC.length ∧ (submissionIdOf uuidC).length = 8 :=
  ⟨by decide,
   (submit_returns_generated_id localConfig blankForm uuidC tsC none none
     (by decide)).1⟩

/-- Counterexample to claim C5: an Excel file that exists but holds no
rows has no header row, yet the initialisation branch leaves it
unchanged (it only fires when the file is absent), and a subsequent
submit appends its data row without any header row present. -/
theorem ensure_initialized_skips_headerless_store :
    ensureInitializedExcel (some []) = [] ∧
    ([] : List (List XCell)).head? ≠ some excelHeader ∧
    (submitFeedback localConfig blankForm uuidC tsC none (some [])).2.2 =
      some [submissionRow blankForm tsC (submissionIdOf uuidC)] ∧
    [submissionRow blankForm tsC (submissionIdOf uuidC)].head? ≠
      some excelHeader := by
  have hoff : googleSheetsEnabled localConfig = false := by decide
  refine ⟨rfl, by simp, ?_, ?_⟩
  · simp [submitFeedback, hoff, ensureInitializedExcel]
  · simp only [List.head?_cons, ne_eq, Option.some.injEq]
    decide

/-- Claim C5 as amended: the initialisation branch writes the 14-column
header exactly when the store does not exist (for the Excel file and for
the Sheets worksheet alike), is idempotent, and consequently, whenever
submit appends a data row to a store that was absent or whose first row
already was the header, the resulting store starts with the header
row. -/
theorem ensure_initialized_header_amended (st : Option (List (List XCell)))
    (cfg : Config) (form : FeedbackForm) (uuid ts : String)
    (sst : Option (List (List XCell)))
    (hst : st = none ∨ ∃ r, st = some r ∧ r.head? = some excelHeader)
    (hoff : googleSheetsEnabled cfg = false) :
    ensureInitializedExcel none = [excelHeader] ∧
    (∀ rows, ensureInitializedExcel (some rows) = rows) ∧
    (∀ s, ensureInitializedExcel (some (ensureInitializedExcel s)) =
      ensureInitializedExcel s) ∧
    ensureWorksheet none = [excelHeader] ∧
    (∀ rows, ensureWorksheet (some rows) = rows) ∧
    (ensureInitializedExcel st).head? = some excelHeader ∧
    (submitFeedback cfg form uuid ts sst st).2.2 =
      some (ensureInitializedExcel st ++
        [submissionRow form ts (submissionIdOf uuid)]) ∧
    ∀ rows, (submitFeedback cfg form uuid ts sst st).2.2 = some rows →
      rows.head? = some excelHeader := by
  have hhead : (ensureInitializedExcel st).head? = some excelHeader := by
    rcases hst with rfl | ⟨r, rfl, hr⟩
    · rfl
    · exact hr
  have hsub : (submitFeedback cfg form uuid ts sst st).2.2 =
      some (ensureInitializedExcel st ++
        [submissionRow form ts (submissionIdOf uuid)]) := by
    simp [submitFeedback, hoff]
  refine ⟨rfl, fun _ => rfl, fun s => by cases s <;> rfl, rfl, fun _ => rfl,
    hhead, hsub, ?_⟩
  intro rows hrows
  have hrows' := Option.some_inj.mp (hsub.symm.trans hrows)
  subst hrows'
  cases he : ensureInitializedExcel st with
  | nil => rw [he] at hhead; cases hhead
  | cons a t =>
    rw [he, List.head?_cons] at hhead
    simp only [List.cons_append, List.head?_cons]
    exact hhead

/-- Witness for C5 (amended) at the absent store and the disabled
configuration. -/
theorem ensure_initialized_header_amended_witness :
    googleSheetsEnabled localConfig = false ∧
    ensureInitializedExcel none = [excelHeader] :=
  ⟨by decide,
   (ensure_initialized_header_amended none localConfig blankForm uuidC tsC
     none (Or.inl rfl) (by decide)).1⟩

/-- `(a ++ b).data = a.data ++ b.data`. -/
theorem string_data_append (a b : String) : (a ++ b).data = a.data ++ b.data :=
  rfl

/-- `asString` inverts `String.data`. -/
theorem asString_data (s : String) : s.data.asString = s := rfl

/-- Splitting a list that starts with the separator peels an empty
chunk. -/
theorem splitCS_sep_head (t : List Char) :
    splitCS (',' :: ' ' :: t) = [] :: splitCS t := rfl

/-- Splitting a list whose head is not a comma keeps that head glued to
the first chunk of the tail. -/
theorem splitCS_cons_of_ne (c c2 : Char) (rest : List Char) (h1 : c ≠ ',') :
    splitCS (c :: c2 :: rest) =
      match splitCS (c2 :: rest) with
      | [] => [[c]]
      | r :: rs => (c :: r) :: rs := by
  rw [splitCS]
  exact if_neg (fun hc => h1 hc.1)

/-- A comma-free chunk is left whole by the `", "` splitter. -/
theorem splitCS_no_comma : ∀ (x : List Char), ',' ∉ x → splitCS x = [x]
  | [], _ => rfl
  | [c], _ => rfl
  | c1 :: c2 :: rest, hx => by
    have h1 : c1 ≠ ',' := by
      intro h; exact hx (by simp [h])
    have ih := splitCS_no_comma (c2 :: rest)
      (fun h => hx (List.mem_cons_of_mem _ h))
    rw [splitCS_cons_of_ne c1 c2 rest h1, ih]

/-- Splitting a comma-free chunk followed by the separator peels off the
chunk. -/
theorem splitCS_append_sep : ∀ (x t : List Char), ',' ∉ x →
    splitCS (x ++ ',' :: ' ' :: t) = x :: splitCS t
  | [], t, _ => splitCS_sep_head t
  | [c], t, hx => by
    have h1 : c ≠ ',' := by intro h; exact hx (by simp [h])
    simp only [List.cons_append, List.nil_append]
    rw [splitCS_cons_of_ne c ',' (' ' :: t) h1, splitCS_sep_head]
  | c :: c2 :: cs, t, hx => by
    have h1 : c ≠ ',' := by intro h; exact hx (by simp [h])
    have ih := splitCS_append_sep (c2 :: cs) t
      (fun h => hx (List.mem_cons_of_mem _ h))
    simp only [List.cons_append] at ih ⊢
    rw [splitCS_cons_of_ne c c2 (cs ++ ',' :: ' ' :: t) h1, ih]

/-- Splitting the `", "` join of topic strings recovers the list when it
is non-empty and no topic contains a comma. -/
theorem join_split_aux : ∀ (L : List String), L ≠ [] →
    (∀ s ∈ L, ',' ∉ s.data) → pySplitCS (pyJoin ", " L) = L
  | [x], _, h => by
    unfold pySplitCS
    rw [show pyJoin ", " [x] = x from rfl,
      splitCS_no_comma x.data (h x (List.mem_singleton.mpr rfl))]
    simp [asString_data]
  | x :: y :: L, _, h => by
    have ih := join_split_aux (y :: L) (by simp)
      (fun s hs => h s (List.mem_cons_of_mem _ hs))
    unfold pySplitCS at ih ⊢
    have hd : (pyJoin ", " (x :: y :: L)).data =
        x.data ++ ',' :: ' ' :: (pyJoin ", " (y :: L)).data := by
      show (x ++ ", " ++ pyJoin ", " (y :: L)).data = _
      rw [string_data_append, string_data_append, List.append_assoc]
      rfl
    rw [hd, splitCS_append_sep x.data _ (h x (List.mem_cons_self _ _)),
      List.map_cons, asString_data, ih]

/-- Claim C6 as amended: for every non-empty list of comma-free topic
strings, joining with `", "` (as submit does at line 328) and splitting
on `", "` recovers the list; the empty list joins to the empty string
(whose Python split is `[""]`, not `[]`). -/
theorem covered_topics_roundtrip (L : List String) (h1 : L ≠ [])
    (h2 : ∀ s ∈ L, ',' ∉ s.data) :
    pySplitCS (pyJoin ", " L) = L ∧ pyJoin ", " ([] : List String) = "" :=
  ⟨join_split_aux L h1 h2, rfl⟩

/-- Witness for C6 (amended) at the list `["Safety", "Ethics"]`. -/
theorem covered_topics_roundtrip_witness :
    (["Safety", "Ethics"] : List String) ≠ [] ∧
    pySplitCS (pyJoin ", " ["Safety", "Ethics"]) = ["Safety", "Ethics"] :=
  ⟨by decide,
   (covered_topics_roundtrip ["Safety", "Ethics"] (by decide) (by decide)).1⟩

/-- Counterexample to claim C6: the empty topic list joins to `""`, but
Python splits `""` on `", "` into `[""]`, not back into the empty
list. -/
theorem split_of_empty_join_not_nil :
    pyJoin ", " ([] : List String) = "" ∧
    pySplitCS (pyJoin ", " ([] : List String)) = [""] ∧
    ([""] : List String) ≠ ([] : List String) := by
  refine ⟨rfl, rfl, by decide⟩
